import Mathlib

/-!
# FreeRTOS platform layer of the AWS IoT device SDK: countdown timer and mutex wrapper

Shallow embedding of

* `src/platform/freertos/common/timer.c`
* `src/platform/freertos/pthread/threads_pthread_wrapper.c`

Machine integers (`uint32_t`, `TickType_t`) are natural numbers; every C operation that can
leave the 32-bit range is followed by an explicit `% 2 ^ 32`.  The FreeRTOS kernel and the
CMSIS `__get_IPSR()` query are not part of the repository: the tick counter, the tick period
`portTICK_PERIOD_MS`, the wait `xTicksToWait` and the semaphore primitives are parameters.
-/

namespace FreeRTOSPlatform

/-! ## timer.c -/

/-- The 32-bit wrap modulus of `uint32_t` arithmetic. -/
def UINT32_MOD : Nat := 2 ^ 32

/-- Modelled from the spec: the `Timer` record of `timer_platform.h` (not among the sources);
`timer.c` uses its single field `endTick`, an unsigned 32-bit absolute tick. -/
structure Timer where
  endTick : Nat
  deriving DecidableEq

/-- What `timer.c` reads from its environment when it asks for the tick count: the value of the
IPSR register (`__get_IPSR()`), and the values the two kernel tick queries would return. -/
structure Clock where
  ipsr : Nat
  xTaskGetTickCount : Nat
  xTaskGetTickCountFromISR : Nat
  deriving DecidableEq

/-- Embeds `static TickType_t FreeRTOS_getCurrentTick(void)`, timer.c lines 29-39. -/
def FreeRTOS_getCurrentTick (c : Clock) : Nat :=
  if 0 ≠ c.ipsr then c.xTaskGetTickCountFromISR else c.xTaskGetTickCount

/-- Embeds `bool has_timer_expired(Timer *timer)`, timer.c lines 41-47. -/
def has_timer_expired (c : Clock) (timer : Timer) : Bool :=
  let currentTick := FreeRTOS_getCurrentTick c
  decide (timer.endTick ≤ currentTick)

/-- Embeds `void countdown_ms(Timer *timer, uint32_t timeout)`, timer.c lines 49-59.
`P` is `portTICK_PERIOD_MS`. The returned record is the timer after the call. -/
def countdown_ms (P : Nat) (c : Clock) (timer : Timer) (timeout : Nat) : Timer :=
  let currentTick := FreeRTOS_getCurrentTick c
  let timer : Timer := { timer with endTick := (currentTick + timeout / P) % UINT32_MOD }
  if timer.endTick < currentTick then
    { timer with endTick := timeout / P }
  else
    timer

/-- Embeds `void countdown_sec(Timer *timer, uint32_t timeout)`, timer.c lines 61-71.
The product `timeout * 1000` is a `uint32_t` product and wraps. -/
def countdown_sec (P : Nat) (c : Clock) (timer : Timer) (timeout : Nat) : Timer :=
  let currentTick := FreeRTOS_getCurrentTick c
  let timer : Timer :=
    { timer with endTick := (currentTick + (timeout * 1000 % UINT32_MOD) / P) % UINT32_MOD }
  if timer.endTick < currentTick then
    { timer with endTick := (timeout * 1000 % UINT32_MOD) / P }
  else
    timer

/-- Embeds `uint32_t left_ms(Timer *timer)`, timer.c lines 73-84. The product is a `uint32_t`
product and wraps. -/
def left_ms (P : Nat) (c : Clock) (timer : Timer) : Nat :=
  let currentTick := FreeRTOS_getCurrentTick c
  if timer.endTick > currentTick then
    ((timer.endTick - currentTick) * P) % UINT32_MOD
  else
    0

/-- Embeds `void init_timer(Timer *timer)`, timer.c lines 86-89. -/
def init_timer (_timer : Timer) : Timer :=
  { endTick := 0 }

/-- The second-granularity start as the specification words it: the millisecond rule applied to
the true number of milliseconds `s * 1000`, with `duration_in_ticks = (s * 1000) / P`; the end
tick is `now + duration_in_ticks`, or `duration_in_ticks` alone when that sum leaves the 32-bit
range. -/
def countdown_sec_spec (P : Nat) (c : Clock) (timer : Timer) (s : Nat) : Timer :=
  let now := FreeRTOS_getCurrentTick c
  let duration_in_ticks := (s * 1000) / P
  if now + duration_in_ticks < UINT32_MOD then
    { timer with endTick := now + duration_in_ticks }
  else
    { timer with endTick := duration_in_ticks }

/-- A clock in task context whose tick counter reads `now`. -/
def taskClock (now : Nat) : Clock :=
  { ipsr := 0, xTaskGetTickCount := now, xTaskGetTickCountFromISR := now }

/-- A clock in interrupt context (IPSR = `irq`, nonzero for a real interrupt) whose
ISR tick query reads `now`. -/
def isrClock (irq now : Nat) : Clock :=
  { ipsr := irq, xTaskGetTickCount := now, xTaskGetTickCountFromISR := now }

/-! ## threads_pthread_wrapper.c -/

/-- FreeRTOS `pdTRUE`, a `BaseType_t`. -/
def pdTRUE : Int := 1

/-- FreeRTOS `pdFALSE`, a `BaseType_t`. -/
def pdFALSE : Int := 0

/-- The null value of a `SemaphoreHandle_t` (handles are addresses, here natural numbers). -/
def NULL : Nat := 0

/-- Modelled from the spec: the `IoT_Error_t` result codes of `aws_iot_error.h` (not among the
sources) that the mutex wrapper returns. -/
inductive IoT_Error_t where
  | SUCCESS
  | MUTEX_INIT_ERROR
  | MUTEX_LOCK_ERROR
  | MUTEX_UNLOCK_ERROR
  | MUTEX_DESTROY_ERROR
  deriving DecidableEq

/-- Modelled from the spec: the `IoT_Mutex_t` record of `threads_platform.h` (not among the
sources); the wrapper uses its single field `lock`, a `SemaphoreHandle_t`. -/
structure IoT_Mutex_t where
  lock : Nat
  deriving DecidableEq

/-- Observable steps of the wrapper: accesses to the field `pMutex->lock` and calls of the
FreeRTOS semaphore primitives, with their handle arguments. -/
inductive Effect where
  | readLock
  | writeLock (h : Nat)
  | xSemaphoreCreateMutexStatic
  | xSemaphoreCreateMutex
  | xSemaphoreTakeFromISR (h : Nat)
  | xSemaphoreTake (h : Nat) (wait : Nat)
  | xSemaphoreGive (h : Nat)
  | vSemaphoreDelete (h : Nat)
  deriving DecidableEq

/-- The FreeRTOS primitives the wrapper calls, as transitions of a kernel state `K`, and the
configured wait `xTicksToWait`. They are not part of the repository and stay parameters. -/
structure Kernel (K : Type) where
  xTicksToWait : Nat
  xSemaphoreCreateMutexStatic : K → Nat × K
  xSemaphoreCreateMutex : K → Nat × K
  xSemaphoreTakeFromISR : Nat → K → Int × K
  xSemaphoreTake : Nat → Nat → K → Int × K
  xSemaphoreGive : Nat → K → Int × K
  vSemaphoreDelete : Nat → K → K

/-- The state threaded through the wrapper: the kernel state and the steps taken so far. -/
structure Sys (K : Type) where
  kernel : K
  trace : List Effect
  deriving DecidableEq

/-- What a call of one of the five public functions leaves behind: the returned code, the record
behind `pMutex` after the call (`none` for a null pointer) and the system state. -/
structure Ret (K : Type) where
  code : IoT_Error_t
  pMutex : Option IoT_Mutex_t
  sys : Sys K
  deriving DecidableEq

/-- Append one step to the trace. -/
def Sys.emit {K : Type} (s : Sys K) (e : Effect) : Sys K :=
  { s with trace := s.trace ++ [e] }

/-- Embeds `static SemaphoreHandle_t FreeRTOS_CreateMutex(void)`, wrapper lines 28-38. -/
def FreeRTOS_CreateMutex {K : Type} (kern : Kernel K) (ipsr : Nat) (s : Sys K) : Nat × Sys K :=
  if 0 ≠ ipsr then
    let r := kern.xSemaphoreCreateMutexStatic s.kernel
    (r.1, { (s.emit Effect.xSemaphoreCreateMutexStatic) with kernel := r.2 })
  else
    let r := kern.xSemaphoreCreateMutex s.kernel
    (r.1, { (s.emit Effect.xSemaphoreCreateMutex) with kernel := r.2 })

/-- Embeds `static BaseType_t FreeRTOS_LockMutex(SemaphoreHandle_t MuxtexHandle)`,
wrapper lines 40-52. -/
def FreeRTOS_LockMutex {K : Type} (kern : Kernel K) (ipsr : Nat) (MuxtexHandle : Nat)
    (s : Sys K) : Int × Sys K :=
  if 0 ≠ ipsr then
    let r := kern.xSemaphoreTakeFromISR MuxtexHandle s.kernel
    (r.1, { (s.emit (Effect.xSemaphoreTakeFromISR MuxtexHandle)) with kernel := r.2 })
  else
    let r := kern.xSemaphoreTake MuxtexHandle kern.xTicksToWait s.kernel
    (r.1, { (s.emit (Effect.xSemaphoreTake MuxtexHandle kern.xTicksToWait)) with kernel := r.2 })

/-- Embeds `static BaseType_t FreeRTOS_UnlockMutex(SemaphoreHandle_t MuxtexHandle)`,
wrapper lines 54-66. -/
def FreeRTOS_UnlockMutex {K : Type} (kern : Kernel K) (ipsr : Nat) (MuxtexHandle : Nat)
    (s : Sys K) : Int × Sys K :=
  if 0 ≠ ipsr then
    let r := kern.xSemaphoreTakeFromISR MuxtexHandle s.kernel
    (r.1, { (s.emit (Effect.xSemaphoreTakeFromISR MuxtexHandle)) with kernel := r.2 })
  else
    let r := kern.xSemaphoreGive MuxtexHandle s.kernel
    (r.1, { (s.emit (Effect.xSemaphoreGive MuxtexHandle)) with kernel := r.2 })

/-- Embeds `IoT_Error_t aws_iot_thread_mutex_init(IoT_Mutex_t *pMutex)`, wrapper lines 76-89. -/
def aws_iot_thread_mutex_init {K : Type} (kern : Kernel K) (ipsr : Nat)
    (pMutex : Option IoT_Mutex_t) (s : Sys K) : Ret K :=
  match pMutex with
  | none => ⟨IoT_Error_t.MUTEX_INIT_ERROR, none, s⟩
  | some m =>
    let r := FreeRTOS_CreateMutex kern ipsr s
    let m : IoT_Mutex_t := { m with lock := r.1 }
    let s := r.2.emit (Effect.writeLock r.1)
    let s := s.emit Effect.readLock
    if NULL = m.lock then
      ⟨IoT_Error_t.MUTEX_INIT_ERROR, some m, s⟩
    else
      ⟨IoT_Error_t.SUCCESS, some m, s⟩

/-- Embeds `IoT_Error_t aws_iot_thread_mutex_lock(IoT_Mutex_t *pMutex)`, wrapper lines 100-111. -/
def aws_iot_thread_mutex_lock {K : Type} (kern : Kernel K) (ipsr : Nat)
    (pMutex : Option IoT_Mutex_t) (s : Sys K) : Ret K :=
  match pMutex with
  | none => ⟨IoT_Error_t.MUTEX_LOCK_ERROR, none, s⟩
  | some m =>
    let r := FreeRTOS_LockMutex kern ipsr m.lock (s.emit Effect.readLock)
    if pdTRUE ≠ r.1 then
      ⟨IoT_Error_t.MUTEX_LOCK_ERROR, some m, r.2⟩
    else
      ⟨IoT_Error_t.SUCCESS, some m, r.2⟩

/-- Embeds `IoT_Error_t aws_iot_thread_mutex_trylock(IoT_Mutex_t *pMutex)`, wrapper lines 122-133. -/
def aws_iot_thread_mutex_trylock {K : Type} (kern : Kernel K) (ipsr : Nat)
    (pMutex : Option IoT_Mutex_t) (s : Sys K) : Ret K :=
  match pMutex with
  | none => ⟨IoT_Error_t.MUTEX_LOCK_ERROR, none, s⟩
  | some m =>
    let r := FreeRTOS_LockMutex kern ipsr m.lock (s.emit Effect.readLock)
    if pdTRUE ≠ r.1 then
      ⟨IoT_Error_t.MUTEX_LOCK_ERROR, some m, r.2⟩
    else
      ⟨IoT_Error_t.SUCCESS, some m, r.2⟩

/-- Embeds `IoT_Error_t aws_iot_thread_mutex_unlock(IoT_Mutex_t *pMutex)`, wrapper lines 143-154. -/
def aws_iot_thread_mutex_unlock {K : Type} (kern : Kernel K) (ipsr : Nat)
    (pMutex : Option IoT_Mutex_t) (s : Sys K) : Ret K :=
  match pMutex with
  | none => ⟨IoT_Error_t.MUTEX_UNLOCK_ERROR, none, s⟩
  | some m =>
    let r := FreeRTOS_UnlockMutex kern ipsr m.lock (s.emit Effect.readLock)
    if pdTRUE ≠ r.1 then
      ⟨IoT_Error_t.MUTEX_UNLOCK_ERROR, some m, r.2⟩
    else
      ⟨IoT_Error_t.SUCCESS, some m, r.2⟩

/-- Embeds `IoT_Error_t aws_iot_thread_mutex_destroy(IoT_Mutex_t *pMutex)`, wrapper lines 164-172. -/
def aws_iot_thread_mutex_destroy {K : Type} (kern : Kernel K) (_ipsr : Nat)
    (pMutex : Option IoT_Mutex_t) (s : Sys K) : Ret K :=
  match pMutex with
  | none => ⟨IoT_Error_t.MUTEX_DESTROY_ERROR, none, s⟩
  | some m =>
    let s := s.emit Effect.readLock
    let s : Sys K :=
      { (s.emit (Effect.vSemaphoreDelete m.lock)) with kernel := kern.vSemaphoreDelete m.lock s.kernel }
    ⟨IoT_Error_t.SUCCESS, some m, s⟩

/-- Which steps are calls of a kernel release (give) primitive. -/
def Effect.isGive : Effect → Bool
  | Effect.xSemaphoreGive _ => true
  | _ => false

/-- Which steps hand the handle `h` to a kernel acquire or release primitive. -/
def Effect.takesOrGives (h : Nat) : Effect → Bool
  | Effect.xSemaphoreTakeFromISR g => decide (g = h)
  | Effect.xSemaphoreTake g _ => decide (g = h)
  | Effect.xSemaphoreGive g => decide (g = h)
  | _ => false

/-! ### A concrete kernel for evaluating the wrapper

Semaphores are numbered from 1; the state records the next free number and the handles
currently held. Like FreeRTOS it does not validate the handle it is given. -/

/-- State of the concrete kernel. -/
structure SimK where
  next : Nat
  held : List Nat
  deriving DecidableEq

/-- Acquire in the concrete kernel: succeeds iff the semaphore is not held. -/
def SimK.take (h : Nat) (k : SimK) : Int × SimK :=
  if h ∈ k.held then (pdFALSE, k) else (pdTRUE, { k with held := h :: k.held })

/-- Release in the concrete kernel: succeeds iff the semaphore is held. -/
def SimK.give (h : Nat) (k : SimK) : Int × SimK :=
  if h ∈ k.held then (pdTRUE, { k with held := k.held.erase h }) else (pdFALSE, k)

/-- Creation in the concrete kernel: hands out the next number. -/
def SimK.create (k : SimK) : Nat × SimK :=
  (k.next, { k with next := k.next + 1 })

/-- The concrete kernel, waiting forever (`portMAX_DELAY`) in task context. -/
def simKernel : Kernel SimK :=
  { xTicksToWait := 4294967295
    xSemaphoreCreateMutexStatic := SimK.create
    xSemaphoreCreateMutex := SimK.create
    xSemaphoreTakeFromISR := SimK.take
    xSemaphoreTake := fun h _ k => SimK.take h k
    xSemaphoreGive := SimK.give
    vSemaphoreDelete := fun h k => { k with held := k.held.erase h } }

/-- The concrete kernel after boot: no semaphore created, nothing traced. -/
def sim0 : Sys SimK :=
  { kernel := { next := 1, held := [] }, trace := [] }

/-- The state after `init` of a record from task context on the booted concrete kernel. -/
def simInit : Ret SimK :=
  aws_iot_thread_mutex_init simKernel 0 (some ⟨0⟩) sim0

/-- The state after `init`, then `lock`, both from task context. -/
def simLocked : Ret SimK :=
  aws_iot_thread_mutex_lock simKernel 0 simInit.pMutex simInit.sys

/-- The state after `init`, then `destroy`, both from task context. -/
def simDestroyed : Ret SimK :=
  aws_iot_thread_mutex_destroy simKernel 0 simInit.pMutex simInit.sys

/-! ## Auxiliary facts -/

theorem UINT32_MOD_eq : UINT32_MOD = 4294967296 := by
  decide

theorem tick_mul_div_le (P D : Nat) : D / P * P ≤ D :=
  Nat.div_mul_le_self D P

theorem tick_remainder_lt (P D : Nat) (hP : 1 ≤ P) : D - D / P * P < P := by
  have hmod : D % P < P := Nat.mod_lt D hP
  have hsplit : P * (D / P) + D % P = D := Nat.div_add_mod D P
  have hcomm : D / P * P = P * (D / P) := Nat.mul_comm _ _
  omega

theorem countdown_ms_endTick_nowrap (P : Nat) (c : Clock) (timer : Timer) (D : Nat)
    (hsum : FreeRTOS_getCurrentTick c + D / P < UINT32_MOD) :
    (countdown_ms P c timer D).endTick = FreeRTOS_getCurrentTick c + D / P := by
  rw [UINT32_MOD_eq] at hsum
  simp only [countdown_ms, UINT32_MOD_eq]
  generalize D / P = ticks at *
  generalize FreeRTOS_getCurrentTick c = now at *
  split_ifs with h
  · simp only at h
    omega
  · simp only
    omega

theorem countdown_ms_endTick_wrap (P : Nat) (c : Clock) (timer : Timer) (D : Nat)
    (hnow : FreeRTOS_getCurrentTick c < UINT32_MOD) (hticks : D / P < UINT32_MOD)
    (hsum : UINT32_MOD ≤ FreeRTOS_getCurrentTick c + D / P) :
    (countdown_ms P c timer D).endTick = D / P := by
  rw [UINT32_MOD_eq] at hsum hnow hticks
  simp only [countdown_ms, UINT32_MOD_eq]
  generalize D / P = ticks at *
  generalize FreeRTOS_getCurrentTick c = now at *
  split_ifs with h
  · rfl
  · simp only at h
    omega

/-! ## The countdown timer -/

/-- C1, as stated, fails: with tick period 1, at tick 0, a start of 0 ms does not wrap, yet
`has_timer_expired` at the same tick returns true, not false. -/
theorem countdown_ms_zero_reads_expired :
    1 ≤ 1 ∧ FreeRTOS_getCurrentTick (taskClock 0) + 0 / 1 < UINT32_MOD ∧
      ¬ (has_timer_expired (taskClock 0) (countdown_ms 1 (taskClock 0) ⟨0⟩ 0) = false) := by
  decide

/-- C1, amended: for a tick period `P ≥ 1`, a 32-bit duration `D` and a current tick `now` with
`now + D / P` inside the 32-bit range, right after `countdown_ms(timer, D)` at tick `now` the
call `has_timer_expired` at the same tick returns false exactly when `D ≥ P` (a duration of
less than one tick, zero included, reads as expired), and `left_ms` returns a value that is at
most `D` and less than one tick period below `D`. -/
theorem countdown_ms_fresh (P : Nat) (c : Clock) (timer : Timer) (D : Nat)
    (hP : 1 ≤ P) (hD : D < UINT32_MOD)
    (hsum : FreeRTOS_getCurrentTick c + D / P < UINT32_MOD) :
    (has_timer_expired c (countdown_ms P c timer D) = false ↔ P ≤ D) ∧
      left_ms P c (countdown_ms P c timer D) ≤ D ∧
      D - left_ms P c (countdown_ms P c timer D) < P := by
  have hend := countdown_ms_endTick_nowrap P c timer D hsum
  have hle := tick_mul_div_le P D
  have hrem := tick_remainder_lt P D hP
  have hpos : P ≤ D ↔ 0 < D / P := by
    rw [Nat.div_pos_iff]
    omega
  rw [UINT32_MOD_eq] at hD hsum
  simp only [has_timer_expired, left_ms, hend, decide_eq_false_iff_not, hpos, UINT32_MOD_eq,
    Nat.add_sub_cancel_left]
  generalize D / P = ticks at *
  generalize FreeRTOS_getCurrentTick c = now at *
  have hfit : ticks * P % 4294967296 = ticks * P := Nat.mod_eq_of_lt (by omega)
  refine ⟨by omega, ?_, ?_⟩
  · split_ifs with h
    · omega
    · omega
  · split_ifs with h
    · omega
    · have hz : ticks = 0 := by omega
      subst hz
      omega

/-- Witness of `countdown_ms_fresh`: tick period 10, tick 1000, duration 25 ms. -/
theorem countdown_ms_fresh_witness :
    (has_timer_expired (taskClock 1000) (countdown_ms 10 (taskClock 1000) ⟨0⟩ 25) = false
        ↔ 10 ≤ 25) ∧
      left_ms 10 (taskClock 1000) (countdown_ms 10 (taskClock 1000) ⟨0⟩ 25) ≤ 25 ∧
      25 - left_ms 10 (taskClock 1000) (countdown_ms 10 (taskClock 1000) ⟨0⟩ 25) < 10 :=
  countdown_ms_fresh 10 (taskClock 1000) ⟨0⟩ 25 (by decide) (by decide) (by decide)

/-- C2: for every timer, every tick period and every current tick `now ≥ timer.endTick`,
`has_timer_expired` returns true and `left_ms` returns exactly 0. -/
theorem expired_at_or_after_endTick (P : Nat) (c : Clock) (timer : Timer)
    (h : timer.endTick ≤ FreeRTOS_getCurrentTick c) :
    has_timer_expired c timer = true ∧ left_ms P c timer = 0 := by
  constructor
  · simp only [has_timer_expired, decide_eq_true_eq]
    exact h
  · simp only [left_ms]
    split_ifs with hgt
    · omega
    · rfl

/-- Witness of `expired_at_or_after_endTick`: end tick 40, read at tick 41 from an interrupt. -/
theorem expired_at_or_after_endTick_witness :
    (⟨40⟩ : Timer).endTick ≤ FreeRTOS_getCurrentTick (isrClock 3 41) ∧
      has_timer_expired (isrClock 3 41) ⟨40⟩ = true ∧ left_ms 10 (isrClock 3 41) ⟨40⟩ = 0 :=
  ⟨by decide, expired_at_or_after_endTick 10 (isrClock 3 41) ⟨40⟩ (by decide)⟩

/-- C3: with `ticks = D / P`, `countdown_ms(timer, D)` at tick `now` sets `endTick` to
`now + ticks` when that sum is below `2^32` and to `ticks` alone when it is `2^32` or more, and
the wrap test of the code (wrapped 32-bit sum `< now`) fires exactly when the true sum is `2^32`
or more. -/
theorem countdown_ms_endTick (P : Nat) (c : Clock) (timer : Timer) (D : Nat)
    (hP : 1 ≤ P) (hnow : FreeRTOS_getCurrentTick c < UINT32_MOD) (hD : D < UINT32_MOD) :
    (FreeRTOS_getCurrentTick c + D / P < UINT32_MOD →
        (countdown_ms P c timer D).endTick = FreeRTOS_getCurrentTick c + D / P) ∧
      (UINT32_MOD ≤ FreeRTOS_getCurrentTick c + D / P →
        (countdown_ms P c timer D).endTick = D / P) ∧
      ((FreeRTOS_getCurrentTick c + D / P) % UINT32_MOD < FreeRTOS_getCurrentTick c ↔
        UINT32_MOD ≤ FreeRTOS_getCurrentTick c + D / P) := by
  have hticks : D / P < UINT32_MOD := lt_of_le_of_lt (Nat.div_le_self D P) hD
  have _ := hP
  refine ⟨countdown_ms_endTick_nowrap P c timer D,
    countdown_ms_endTick_wrap P c timer D hnow hticks, ?_⟩
  rw [UINT32_MOD_eq] at hnow hticks ⊢
  generalize D / P = ticks at *
  omega

/-- Witness of `countdown_ms_endTick`: tick period 2, tick `2^32 - 6`, duration 20 ms
(10 ticks), a start whose sum wraps. -/
theorem countdown_ms_endTick_witness :
    (countdown_ms 2 (taskClock 4294967290) ⟨0⟩ 20).endTick = 20 / 2 :=
  (countdown_ms_endTick 2 (taskClock 4294967290) ⟨0⟩ 20 (by decide) (by decide)
    (by decide)).2.1 (by decide)

/-- C4, as stated, fails: with tick period 2, a timer ending at tick `2^31` read at tick 0 has
`endTick > now`, and `left_ms` returns 0, not the exact product `2^31 * 2 = 2^32`. -/
theorem left_ms_product_wraps :
    (⟨2147483648⟩ : Timer).endTick > FreeRTOS_getCurrentTick (taskClock 0) ∧
      left_ms 2 (taskClock 0) ⟨2147483648⟩ = 0 ∧
      left_ms 2 (taskClock 0) ⟨2147483648⟩ ≠
        ((⟨2147483648⟩ : Timer).endTick - FreeRTOS_getCurrentTick (taskClock 0)) * 2 := by
  decide

/-- C4, amended: `left_ms` returns `(endTick - now) * P` reduced modulo `2^32` when
`endTick > now`, and 0 otherwise; it is the exact product whenever that product is below `2^32`
(always so for `P = 1` with 32-bit ticks); the result is never negative and is below `2^32`. -/
theorem left_ms_value (P : Nat) (c : Clock) (timer : Timer) :
    (timer.endTick > FreeRTOS_getCurrentTick c →
        left_ms P c timer = ((timer.endTick - FreeRTOS_getCurrentTick c) * P) % UINT32_MOD) ∧
      (¬ timer.endTick > FreeRTOS_getCurrentTick c → left_ms P c timer = 0) ∧
      (timer.endTick > FreeRTOS_getCurrentTick c →
        (timer.endTick - FreeRTOS_getCurrentTick c) * P < UINT32_MOD →
        left_ms P c timer = (timer.endTick - FreeRTOS_getCurrentTick c) * P) ∧
      0 ≤ left_ms P c timer ∧ left_ms P c timer < UINT32_MOD := by
  have hmod : 0 < UINT32_MOD := by decide
  refine ⟨?_, ?_, ?_, Nat.zero_le _, ?_⟩
  · intro h
    simp only [left_ms, if_pos h]
  · intro h
    simp only [left_ms, if_neg h]
  · intro h hfit
    simp only [left_ms, if_pos h]
    exact Nat.mod_eq_of_lt hfit
  · simp only [left_ms]
    split_ifs with h
    · exact Nat.mod_lt _ hmod
    · exact hmod

/-- Witness of `left_ms_value`: tick period 10, end tick 8 read at tick 5 gives 30 ms. -/
theorem left_ms_value_witness :
    left_ms 10 (taskClock 5) ⟨8⟩ = ((⟨8⟩ : Timer).endTick - FreeRTOS_getCurrentTick (taskClock 5)) * 10 :=
  (left_ms_value 10 (taskClock 5) ⟨8⟩).2.2.1 (by decide) (by decide)

/-- C5, as stated, fails: for `s = 4294968` seconds (a 32-bit value) with tick period 1000 at
tick 0, `s * 1000` wraps to 704 in the code, so `countdown_sec` leaves `endTick = 0`, while the
millisecond rule on the true `s * 1000` milliseconds gives `4294968`. -/
theorem countdown_sec_product_wraps :
    4294968 < UINT32_MOD ∧
      (countdown_sec 1000 (taskClock 0) ⟨0⟩ 4294968).endTick = 0 ∧
      (countdown_sec_spec 1000 (taskClock 0) ⟨0⟩ 4294968).endTick = 4294968 ∧
      countdown_sec 1000 (taskClock 0) ⟨0⟩ 4294968 ≠
        countdown_sec_spec 1000 (taskClock 0) ⟨0⟩ 4294968 := by
  decide

/-- C5, amended: `countdown_sec(timer, s)` leaves the timer exactly as
`countdown_ms(timer, (s * 1000) mod 2^32)` does at the same tick, for every `s`; when
`s * 1000 < 2^32` (and the tick is a 32-bit value) this is the millisecond rule on the true
`s * 1000` milliseconds, with `duration_in_ticks = (s * 1000) / P`. -/
theorem countdown_sec_eq_countdown_ms (P : Nat) (c : Clock) (timer : Timer) (s : Nat) :
    countdown_sec P c timer s = countdown_ms P c timer (s * 1000 % UINT32_MOD) ∧
      (s * 1000 < UINT32_MOD →
        countdown_sec P c timer s = countdown_ms P c timer (s * 1000)) ∧
      (s * 1000 < UINT32_MOD → FreeRTOS_getCurrentTick c < UINT32_MOD →
        countdown_sec P c timer s = countdown_sec_spec P c timer s) := by
  have hfst : countdown_sec P c timer s = countdown_ms P c timer (s * 1000 % UINT32_MOD) := rfl
  refine ⟨hfst, ?_, ?_⟩
  · intro hs
    rw [hfst, Nat.mod_eq_of_lt hs]
  · intro hs hnow
    rw [hfst, Nat.mod_eq_of_lt hs]
    have hticks : s * 1000 / P < UINT32_MOD := lt_of_le_of_lt (Nat.div_le_self _ P) hs
    by_cases hsum : FreeRTOS_getCurrentTick c + s * 1000 / P < UINT32_MOD
    · have hend := countdown_ms_endTick_nowrap P c timer (s * 1000) hsum
      simp only [countdown_sec_spec, if_pos hsum]
      cases hcm : countdown_ms P c timer (s * 1000) with
      | mk e =>
        rw [hcm] at hend
        simp only at hend
        rw [hend]
    · have hend := countdown_ms_endTick_wrap P c timer (s * 1000) hnow hticks (by omega)
      simp only [countdown_sec_spec, if_neg hsum]
      cases hcm : countdown_ms P c timer (s * 1000) with
      | mk e =>
        rw [hcm] at hend
        simp only at hend
        rw [hend]

/-- Witness of `countdown_sec_eq_countdown_ms`: 3 seconds with tick period 10 at tick 7. -/
theorem countdown_sec_eq_countdown_ms_witness :
    countdown_sec 10 (taskClock 7) ⟨0⟩ 3 = countdown_sec_spec 10 (taskClock 7) ⟨0⟩ 3 :=
  (countdown_sec_eq_countdown_ms 10 (taskClock 7) ⟨0⟩ 3).2.2 (by decide) (by decide)

/-- C10: when `now + ticks` wraps (`ticks = D / P`), right after `countdown_ms(timer, D)` at
tick `now` the call `has_timer_expired` at the same tick returns true iff `ticks ≤ now`; so
whenever `ticks ≤ now` (in particular whenever `ticks ≤ 2^31`) the fresh timer reads as expired
and `left_ms` returns 0, and otherwise `left_ms` returns `(ticks - now) * P` modulo `2^32`,
which is not `D`. -/
theorem countdown_ms_wrapped (P : Nat) (c : Clock) (timer : Timer) (D : Nat)
    (hP : 1 ≤ P) (hnow : FreeRTOS_getCurrentTick c < UINT32_MOD) (hD : D < UINT32_MOD)
    (hwrap : UINT32_MOD ≤ FreeRTOS_getCurrentTick c + D / P) :
    (has_timer_expired c (countdown_ms P c timer D) = true ↔
        D / P ≤ FreeRTOS_getCurrentTick c) ∧
      (D / P ≤ FreeRTOS_getCurrentTick c →
        has_timer_expired c (countdown_ms P c timer D) = true ∧
          left_ms P c (countdown_ms P c timer D) = 0) ∧
      (D / P ≤ 2 ^ 31 → D / P ≤ FreeRTOS_getCurrentTick c) ∧
      (¬ D / P ≤ FreeRTOS_getCurrentTick c →
        left_ms P c (countdown_ms P c timer D) =
            ((D / P - FreeRTOS_getCurrentTick c) * P) % UINT32_MOD ∧
          left_ms P c (countdown_ms P c timer D) ≠ D) := by
  have hticks : D / P < UINT32_MOD := lt_of_le_of_lt (Nat.div_le_self D P) hD
  have hend := countdown_ms_endTick_wrap P c timer D hnow hticks hwrap
  have hle := tick_mul_div_le P D
  simp only [has_timer_expired, left_ms, hend, decide_eq_true_eq]
  rw [UINT32_MOD_eq] at hnow hD hwrap hticks ⊢
  refine ⟨trivial, ?_, ?_, ?_⟩
  · intro h
    refine ⟨h, ?_⟩
    rw [if_neg (by omega)]
  · intro h
    have h31 : (2 : Nat) ^ 31 = 2147483648 := by norm_num
    omega
  · intro h
    rw [if_pos (by omega)]
    refine ⟨rfl, ?_⟩
    have hP1 : P = 1 := by
      by_contra hne
      have hP2 : 2 ≤ P := by omega
      have hhalf : D / P ≤ D / 2 := Nat.div_le_div_left hP2 (by norm_num)
      omega
    subst hP1
    simp only [Nat.div_one, Nat.mul_one] at h hwrap ⊢
    omega

/-- Witness of `countdown_ms_wrapped`, tick period 1: at tick `2^32 - 6` a start of 10 ms
wraps, `endTick` becomes 10 and the fresh timer reads as expired with 0 ms left; at tick 1 a
start of `2^32 - 1` ms wraps, `endTick` becomes `2^32 - 1` and `left_ms` is not the duration. -/
theorem countdown_ms_wrapped_witness :
    (has_timer_expired (taskClock 4294967290) (countdown_ms 1 (taskClock 4294967290) ⟨0⟩ 10)
          = true ∧
        left_ms 1 (taskClock 4294967290) (countdown_ms 1 (taskClock 4294967290) ⟨0⟩ 10) = 0) ∧
      (left_ms 1 (taskClock 1) (countdown_ms 1 (taskClock 1) ⟨0⟩ 4294967295) =
          ((4294967295 / 1 - FreeRTOS_getCurrentTick (taskClock 1)) * 1) % UINT32_MOD ∧
        left_ms 1 (taskClock 1) (countdown_ms 1 (taskClock 1) ⟨0⟩ 4294967295) ≠ 4294967295) :=
  ⟨(countdown_ms_wrapped 1 (taskClock 4294967290) ⟨0⟩ 10 (by decide) (by decide) (by decide)
      (by decide)).2.1 (by decide),
    (countdown_ms_wrapped 1 (taskClock 1) ⟨0⟩ 4294967295 (by decide) (by decide) (by decide)
      (by decide)).2.2.2 (by decide)⟩

/-! ## The mutex wrapper -/

theorem lock_some_task {K : Type} (kern : Kernel K) (m : IoT_Mutex_t) (s : Sys K) :
    aws_iot_thread_mutex_lock kern 0 (some m) s =
      ⟨if pdTRUE ≠ (kern.xSemaphoreTake m.lock kern.xTicksToWait s.kernel).1 then
          IoT_Error_t.MUTEX_LOCK_ERROR else IoT_Error_t.SUCCESS,
        some m,
        ⟨(kern.xSemaphoreTake m.lock kern.xTicksToWait s.kernel).2,
          s.trace ++ [Effect.readLock, Effect.xSemaphoreTake m.lock kern.xTicksToWait]⟩⟩ := by
  simp only [aws_iot_thread_mutex_lock, FreeRTOS_LockMutex, Sys.emit, ne_eq, not_true_eq_false,
    if_false, List.append_assoc, List.singleton_append]
  split_ifs <;> rfl

theorem lock_some_isr {K : Type} (kern : Kernel K) (ipsr : Nat) (hi : ipsr ≠ 0)
    (m : IoT_Mutex_t) (s : Sys K) :
    aws_iot_thread_mutex_lock kern ipsr (some m) s =
      ⟨if pdTRUE ≠ (kern.xSemaphoreTakeFromISR m.lock s.kernel).1 then
          IoT_Error_t.MUTEX_LOCK_ERROR else IoT_Error_t.SUCCESS,
        some m,
        ⟨(kern.xSemaphoreTakeFromISR m.lock s.kernel).2,
          s.trace ++ [Effect.readLock, Effect.xSemaphoreTakeFromISR m.lock]⟩⟩ := by
  have h0 : (0 : Nat) ≠ ipsr := fun h => hi h.symm
  simp only [aws_iot_thread_mutex_lock, FreeRTOS_LockMutex, Sys.emit, if_pos h0,
    List.append_assoc, List.singleton_append]
  split_ifs <;> rfl

theorem unlock_some_task {K : Type} (kern : Kernel K) (m : IoT_Mutex_t) (s : Sys K) :
    aws_iot_thread_mutex_unlock kern 0 (some m) s =
      ⟨if pdTRUE ≠ (kern.xSemaphoreGive m.lock s.kernel).1 then
          IoT_Error_t.MUTEX_UNLOCK_ERROR else IoT_Error_t.SUCCESS,
        some m,
        ⟨(kern.xSemaphoreGive m.lock s.kernel).2,
          s.trace ++ [Effect.readLock, Effect.xSemaphoreGive m.lock]⟩⟩ := by
  simp only [aws_iot_thread_mutex_unlock, FreeRTOS_UnlockMutex, Sys.emit, ne_eq,
    not_true_eq_false, if_false, List.append_assoc, List.singleton_append]
  split_ifs <;> rfl

theorem unlock_some_isr {K : Type} (kern : Kernel K) (ipsr : Nat) (hi : ipsr ≠ 0)
    (m : IoT_Mutex_t) (s : Sys K) :
    aws_iot_thread_mutex_unlock kern ipsr (some m) s =
      ⟨if pdTRUE ≠ (kern.xSemaphoreTakeFromISR m.lock s.kernel).1 then
          IoT_Error_t.MUTEX_UNLOCK_ERROR else IoT_Error_t.SUCCESS,
        some m,
        ⟨(kern.xSemaphoreTakeFromISR m.lock s.kernel).2,
          s.trace ++ [Effect.readLock, Effect.xSemaphoreTakeFromISR m.lock]⟩⟩ := by
  have h0 : (0 : Nat) ≠ ipsr := fun h => hi h.symm
  simp only [aws_iot_thread_mutex_unlock, FreeRTOS_UnlockMutex, Sys.emit, if_pos h0,
    List.append_assoc, List.singleton_append]
  split_ifs <;> rfl

theorem destroy_some {K : Type} (kern : Kernel K) (ipsr : Nat) (m : IoT_Mutex_t) (s : Sys K) :
    aws_iot_thread_mutex_destroy kern ipsr (some m) s =
      ⟨IoT_Error_t.SUCCESS, some m,
        ⟨kern.vSemaphoreDelete m.lock s.kernel,
          s.trace ++ [Effect.readLock, Effect.vSemaphoreDelete m.lock]⟩⟩ := by
  simp only [aws_iot_thread_mutex_destroy, Sys.emit, List.append_assoc, List.singleton_append]

/-- C6: called with a null record, in every context and kernel state, `init` returns
`MUTEX_INIT_ERROR`, `lock` and `trylock` return `MUTEX_LOCK_ERROR`, `unlock` returns
`MUTEX_UNLOCK_ERROR` and `destroy` returns `MUTEX_DESTROY_ERROR`, and the system state is
returned untouched: the trace gains no step (no kernel primitive is called, no field of the
record is read or written) and the kernel state is the one passed in. -/
theorem null_record_rejected {K : Type} (kern : Kernel K) (ipsr : Nat) (s : Sys K) :
    aws_iot_thread_mutex_init kern ipsr none s = ⟨IoT_Error_t.MUTEX_INIT_ERROR, none, s⟩ ∧
      aws_iot_thread_mutex_lock kern ipsr none s = ⟨IoT_Error_t.MUTEX_LOCK_ERROR, none, s⟩ ∧
      aws_iot_thread_mutex_trylock kern ipsr none s = ⟨IoT_Error_t.MUTEX_LOCK_ERROR, none, s⟩ ∧
      aws_iot_thread_mutex_unlock kern ipsr none s = ⟨IoT_Error_t.MUTEX_UNLOCK_ERROR, none, s⟩ ∧
      aws_iot_thread_mutex_destroy kern ipsr none s =
        ⟨IoT_Error_t.MUTEX_DESTROY_ERROR, none, s⟩ :=
  ⟨rfl, rfl, rfl, rfl, rfl⟩

/-- C7, the code at the failing input: a record initialised and locked from task context on the
concrete kernel (handle 1), then `aws_iot_thread_mutex_unlock` from interrupt context
(IPSR = 3). The call reads the handle and calls `xSemaphoreTakeFromISR` on it, an acquire; no
give primitive appears among its steps, it returns `MUTEX_UNLOCK_ERROR`, and the semaphore is
still held afterwards. -/
theorem unlock_from_isr_calls_take :
    simLocked.code = IoT_Error_t.SUCCESS ∧ simLocked.pMutex = some ⟨1⟩ ∧
      (aws_iot_thread_mutex_unlock simKernel 3 simLocked.pMutex simLocked.sys).sys.trace =
        simLocked.sys.trace ++ [Effect.readLock, Effect.xSemaphoreTakeFromISR 1] ∧
      (aws_iot_thread_mutex_unlock simKernel 3 simLocked.pMutex simLocked.sys).sys.trace.any
        Effect.isGive = false ∧
      (aws_iot_thread_mutex_unlock simKernel 3 simLocked.pMutex simLocked.sys).code =
        IoT_Error_t.MUTEX_UNLOCK_ERROR ∧
      (aws_iot_thread_mutex_unlock simKernel 3 simLocked.pMutex simLocked.sys).sys.kernel.held =
        [1] := by
  decide

/-- C8, as stated, fails: on the concrete kernel, a record is initialised (handle 1) and
destroyed, both with `SUCCESS`; a later `aws_iot_thread_mutex_lock` passes handle 1 to
`xSemaphoreTake` and returns `SUCCESS`, not `MUTEX_LOCK_ERROR`, and a later
`aws_iot_thread_mutex_unlock` passes handle 1 to `xSemaphoreGive`. -/
theorem lock_after_destroy_reaches_kernel :
    simInit.code = IoT_Error_t.SUCCESS ∧ simInit.pMutex = some ⟨1⟩ ∧
      simDestroyed.code = IoT_Error_t.SUCCESS ∧
      (aws_iot_thread_mutex_lock simKernel 0 simDestroyed.pMutex simDestroyed.sys).code =
        IoT_Error_t.SUCCESS ∧
      (aws_iot_thread_mutex_lock simKernel 0 simDestroyed.pMutex simDestroyed.sys).sys.trace =
        simDestroyed.sys.trace ++ [Effect.readLock, Effect.xSemaphoreTake 1 4294967295] ∧
      (aws_iot_thread_mutex_unlock simKernel 0 simDestroyed.pMutex simDestroyed.sys).sys.trace =
        simDestroyed.sys.trace ++ [Effect.readLock, Effect.xSemaphoreGive 1] ∧
      ((aws_iot_thread_mutex_lock simKernel 0 simDestroyed.pMutex
        simDestroyed.sys).sys.trace.drop simDestroyed.sys.trace.length).any
          (Effect.takesOrGives 1) = true := by
  decide

/-- C8, amended: `aws_iot_thread_mutex_destroy` on a non-null record returns `SUCCESS`, passes
the record's handle to `vSemaphoreDelete` and leaves the record as it was (the handle is not
cleared). In any later state, `aws_iot_thread_mutex_lock` on that record passes the same handle
to the kernel acquire of the current context (`xSemaphoreTake` with `xTicksToWait` from a task,
`xSemaphoreTakeFromISR` from an interrupt) and returns `MUTEX_LOCK_ERROR` exactly when the
kernel reports other than `pdTRUE`; from task context `aws_iot_thread_mutex_unlock` passes the
handle to `xSemaphoreGive` and returns `MUTEX_UNLOCK_ERROR` exactly when the kernel reports
other than `pdTRUE`. -/
theorem destroy_leaves_handle {K : Type} (kern : Kernel K) (ipsr irq : Nat) (m : IoT_Mutex_t)
    (s later : Sys K) :
    (aws_iot_thread_mutex_destroy kern ipsr (some m) s).code = IoT_Error_t.SUCCESS ∧
      (aws_iot_thread_mutex_destroy kern ipsr (some m) s).pMutex = some m ∧
      (aws_iot_thread_mutex_destroy kern ipsr (some m) s).sys.trace =
        s.trace ++ [Effect.readLock, Effect.vSemaphoreDelete m.lock] ∧
      (aws_iot_thread_mutex_destroy kern ipsr (some m) s).sys.kernel =
        kern.vSemaphoreDelete m.lock s.kernel ∧
      (aws_iot_thread_mutex_lock kern 0
          (aws_iot_thread_mutex_destroy kern ipsr (some m) s).pMutex later).sys.trace =
        later.trace ++ [Effect.readLock, Effect.xSemaphoreTake m.lock kern.xTicksToWait] ∧
      ((aws_iot_thread_mutex_lock kern 0
          (aws_iot_thread_mutex_destroy kern ipsr (some m) s).pMutex later).code =
            IoT_Error_t.MUTEX_LOCK_ERROR ↔
        (kern.xSemaphoreTake m.lock kern.xTicksToWait later.kernel).1 ≠ pdTRUE) ∧
      (aws_iot_thread_mutex_lock kern (irq + 1)
          (aws_iot_thread_mutex_destroy kern ipsr (some m) s).pMutex later).sys.trace =
        later.trace ++ [Effect.readLock, Effect.xSemaphoreTakeFromISR m.lock] ∧
      ((aws_iot_thread_mutex_lock kern (irq + 1)
          (aws_iot_thread_mutex_destroy kern ipsr (some m) s).pMutex later).code =
            IoT_Error_t.MUTEX_LOCK_ERROR ↔
        (kern.xSemaphoreTakeFromISR m.lock later.kernel).1 ≠ pdTRUE) ∧
      (aws_iot_thread_mutex_unlock kern 0
          (aws_iot_thread_mutex_destroy kern ipsr (some m) s).pMutex later).sys.trace =
        later.trace ++ [Effect.readLock, Effect.xSemaphoreGive m.lock] ∧
      ((aws_iot_thread_mutex_unlock kern 0
          (aws_iot_thread_mutex_destroy kern ipsr (some m) s).pMutex later).code =
            IoT_Error_t.MUTEX_UNLOCK_ERROR ↔
        (kern.xSemaphoreGive m.lock later.kernel).1 ≠ pdTRUE) := by
  rw [destroy_some, lock_some_task, lock_some_isr kern (irq + 1) (Nat.succ_ne_zero irq),
    unlock_some_task]
  refine ⟨rfl, rfl, rfl, rfl, rfl, ?_, rfl, ?_, rfl, ?_⟩
  · by_cases h : pdTRUE = (kern.xSemaphoreTake m.lock kern.xTicksToWait later.kernel).1
    · simp [h]
    · simp [h, Ne.symm h]
  · by_cases h : pdTRUE = (kern.xSemaphoreTakeFromISR m.lock later.kernel).1
    · simp [h]
    · simp [h, Ne.symm h]
  · by_cases h : pdTRUE = (kern.xSemaphoreGive m.lock later.kernel).1
    · simp [h]
    · simp [h, Ne.symm h]

/-- C9: for a non-null record, when `__get_IPSR()` is nonzero `aws_iot_thread_mutex_lock`
reads the handle and calls only `xSemaphoreTakeFromISR` on it (the kernel state afterwards is
the one that call returns), returning `SUCCESS` if it reports `pdTRUE` and `MUTEX_LOCK_ERROR`
otherwise; when it is zero the function calls only `xSemaphoreTake` on the handle with
`xTicksToWait`, with the same rule for the returned code. -/
theorem lock_dispatches_on_context {K : Type} (kern : Kernel K) (ipsr : Nat) (m : IoT_Mutex_t)
    (s : Sys K) :
    (ipsr ≠ 0 →
        (aws_iot_thread_mutex_lock kern ipsr (some m) s).sys.trace =
            s.trace ++ [Effect.readLock, Effect.xSemaphoreTakeFromISR m.lock] ∧
          (aws_iot_thread_mutex_lock kern ipsr (some m) s).sys.kernel =
            (kern.xSemaphoreTakeFromISR m.lock s.kernel).2 ∧
          ((kern.xSemaphoreTakeFromISR m.lock s.kernel).1 = pdTRUE →
            (aws_iot_thread_mutex_lock kern ipsr (some m) s).code = IoT_Error_t.SUCCESS) ∧
          ((kern.xSemaphoreTakeFromISR m.lock s.kernel).1 ≠ pdTRUE →
            (aws_iot_thread_mutex_lock kern ipsr (some m) s).code =
              IoT_Error_t.MUTEX_LOCK_ERROR)) ∧
      (ipsr = 0 →
        (aws_iot_thread_mutex_lock kern ipsr (some m) s).sys.trace =
            s.trace ++ [Effect.readLock, Effect.xSemaphoreTake m.lock kern.xTicksToWait] ∧
          (aws_iot_thread_mutex_lock kern ipsr (some m) s).sys.kernel =
            (kern.xSemaphoreTake m.lock kern.xTicksToWait s.kernel).2 ∧
          ((kern.xSemaphoreTake m.lock kern.xTicksToWait s.kernel).1 = pdTRUE →
            (aws_iot_thread_mutex_lock kern ipsr (some m) s).code = IoT_Error_t.SUCCESS) ∧
          ((kern.xSemaphoreTake m.lock kern.xTicksToWait s.kernel).1 ≠ pdTRUE →
            (aws_iot_thread_mutex_lock kern ipsr (some m) s).code =
              IoT_Error_t.MUTEX_LOCK_ERROR)) := by
  constructor
  · intro hi
    rw [lock_some_isr kern ipsr hi]
    refine ⟨rfl, rfl, ?_, ?_⟩
    · intro h
      simp [h]
    · intro h
      simp [Ne.symm h]
  · intro hi
    subst hi
    rw [lock_some_task]
    refine ⟨rfl, rfl, ?_, ?_⟩
    · intro h
      simp [h]
    · intro h
      simp [Ne.symm h]

/-- Witness of `lock_dispatches_on_context`: on the concrete kernel, a freshly initialised
record (handle 1) locked from interrupt context (IPSR = 3) calls only the ISR acquire. -/
theorem lock_dispatches_on_context_witness :
    (aws_iot_thread_mutex_lock simKernel 3 (some ⟨1⟩) simInit.sys).sys.trace =
      simInit.sys.trace ++ [Effect.readLock, Effect.xSemaphoreTakeFromISR 1] :=
  ((lock_dispatches_on_context simKernel 3 ⟨1⟩ simInit.sys).1 (by decide)).1


end FreeRTOSPlatform
